import Mathlib

/-!
Shallow embedding of the offline-first ticket scanning application
(Next.js + Prisma + IndexedDB) for checking its natural-language
specification.

Server side (system of record):
* `scanPOST` embeds `src/app/api/scan/route.ts` (`POST /api/scan`).
* `syncPOST` embeds `src/app/api/sync/route.ts` (`POST /api/sync`).
Dates are modelled as `Nat`; `new Date()` / `uuidv4()` are passed in as
explicit `now` / fresh-id parameters.  The Prisma store is a pair of
lists; `findUnique` is `List.find?`, `create` appends, `update` maps the
matching row.

Client side:
* `ClientStore` with the `indexedDBOperations` of `src/lib/indexedDB.ts`.
* `performManualSync` embeds `src/lib/sync.ts`.
* `performOfflineScan` / `processTicketScan` embed `src/app/scan/page.tsx`.
-/

namespace ScanApp

inductive TicketStatus where
  | ACTIVE
  | USED
  | CANCELLED
  | INVALID
deriving DecidableEq, Repr

/-- The string name of a status, as interpolated by `TICKET_${ticket.status}`. -/
def TicketStatus.name : TicketStatus → String
  | .ACTIVE => "ACTIVE"
  | .USED => "USED"
  | .CANCELLED => "CANCELLED"
  | .INVALID => "INVALID"

/-- A server `Ticket` row (Prisma model). -/
structure Ticket where
  id : String
  qrCode : String
  eventName : String
  ticketType : String
  price : Int
  holderName : Option String
  holderEmail : Option String
  status : TicketStatus
  createdAt : Nat
  updatedAt : Nat
  usedAt : Option Nat
deriving DecidableEq, Repr

/-- A server `ScanLog` row (Prisma model). -/
structure ScanLog where
  id : String
  ticketId : String
  scannedAt : Nat
  scannedBy : Option String
  location : Option String
  deviceInfo : Option String
deriving DecidableEq, Repr

/-- The system of record: the two tables touched by the scan and sync routes. -/
structure Db where
  tickets : List Ticket
  scanLogs : List ScanLog
deriving DecidableEq, Repr

/-- The validated body of `POST /api/scan` (`scanTicketSchema`). -/
structure ScanRequest where
  qrCode : String
  scannedBy : Option String
  location : Option String
  deviceInfo : Option String
deriving DecidableEq, Repr

/-- The JSON reply of `POST /api/scan`: success with the updated ticket and the
new scan log, or an error selected by the message thrown inside the
transaction, with its HTTP status. -/
inductive ScanResponse where
  | ok (ticket : Ticket) (scanLog : ScanLog)
  | err (httpStatus : Nat) (code : String)
deriving DecidableEq, Repr

/-- `POST /api/scan` (`src/app/api/scan/route.ts`): find the ticket by qrCode;
absent → 404 `TICKET_NOT_FOUND`; status ≠ ACTIVE → 409 `TICKET_<status>`;
otherwise flip the ticket to USED with `usedAt = now` and create one ScanLog.
A thrown error rolls the transaction back, so the store is unchanged on
failure.  `now` stands for `new Date()`, `freshId` for `uuidv4()`; the
ScanLog's `scannedAt` takes the row-creation default, i.e. `now`. -/
def scanPOST (db : Db) (req : ScanRequest) (now : Nat) (freshId : String) :
    Db × ScanResponse :=
  match db.tickets.find? (fun t => t.qrCode == req.qrCode) with
  | none => (db, .err 404 "TICKET_NOT_FOUND")
  | some ticket =>
    if ticket.status ≠ .ACTIVE then
      (db, .err 409 ("TICKET_" ++ ticket.status.name))
    else
      let updatedTicket : Ticket :=
        { ticket with status := .USED, usedAt := some now, updatedAt := now }
      let scanLog : ScanLog :=
        { id := freshId, ticketId := ticket.id, scannedAt := now,
          scannedBy := req.scannedBy, location := req.location,
          deviceInfo := req.deviceInfo }
      ({ tickets :=
           db.tickets.map (fun t => if t.id == ticket.id then updatedTicket else t),
         scanLogs := db.scanLogs ++ [scanLog] },
       .ok updatedTicket scanLog)

/-! ### The reconciliation endpoint `POST /api/sync` (`src/app/api/sync/route.ts`) -/

/-- A ticket item of the reconciliation batch (`syncDataSchema.tickets`). -/
structure SyncTicketItem where
  id : String
  eventName : String
  ticketType : String
  price : Int
  qrCode : String
  holderName : Option String
  holderEmail : Option String
  createdAt : Nat
deriving DecidableEq, Repr

/-- A scan-log item of the reconciliation batch (`syncDataSchema.scanLogs`). -/
structure SyncScanLogItem where
  id : String
  ticketId : String
  scannedAt : Nat
  scannedBy : Option String
  location : Option String
  deviceInfo : Option String
deriving DecidableEq, Repr

/-- The validated body of `POST /api/sync`. -/
structure SyncRequest where
  tickets : List SyncTicketItem
  scanLogs : List SyncScanLogItem
deriving DecidableEq, Repr

/-- A per-item error entry of `syncResult.errors`. -/
structure SyncError where
  type : String
  id : String
  error : String
deriving DecidableEq, Repr

/-- The mutable `syncResult` accumulator of the sync route: the two success
lists (`synced.tickets`, `synced.scanLogs`) and the error list. -/
structure SyncReport where
  syncedTickets : List String
  syncedScanLogs : List String
  errors : List SyncError
deriving DecidableEq, Repr

def emptyReport : SyncReport :=
  { syncedTickets := [], syncedScanLogs := [], errors := [] }

/-- The Ticket row created by `tx.ticket.create` from a batch item: status
defaults to ACTIVE, `usedAt` unset, an empty `holderEmail` coerced to null
(`holderEmail || null`), `updatedAt` stamped by the store at write time. -/
def Ticket.fromSyncItem (it : SyncTicketItem) (now : Nat) : Ticket :=
  { id := it.id, qrCode := it.qrCode, eventName := it.eventName,
    ticketType := it.ticketType, price := it.price,
    holderName := it.holderName,
    holderEmail := if it.holderEmail = some "" then none else it.holderEmail,
    status := .ACTIVE, createdAt := it.createdAt, updatedAt := now,
    usedAt := none }

/-- The ScanLog row created by `tx.scanLog.create` from a batch item. -/
def ScanLog.fromSyncItem (it : SyncScanLogItem) : ScanLog :=
  { id := it.id, ticketId := it.ticketId, scannedAt := it.scannedAt,
    scannedBy := it.scannedBy, location := it.location,
    deviceInfo := it.deviceInfo }

/-- One iteration of the sync route's ticket loop: if a Ticket with the item's
id already exists, skip; otherwise create it; either way push the id onto
`synced.tickets`. -/
def processTicket (now : Nat) (st : Db × SyncReport) (it : SyncTicketItem) :
    Db × SyncReport :=
  match st.1.tickets.find? (fun t => t.id == it.id) with
  | some _ =>
      (st.1, { st.2 with syncedTickets := st.2.syncedTickets ++ [it.id] })
  | none =>
      ({ st.1 with tickets := st.1.tickets ++ [Ticket.fromSyncItem it now] },
       { st.2 with syncedTickets := st.2.syncedTickets ++ [it.id] })

/-- One iteration of the sync route's scan-log loop: an existing ScanLog id is
an idempotent skip counted as synced; otherwise the referenced Ticket is
looked up — absent means the thrown "Associated ticket not found" is caught
and recorded as a per-item error; present means the ScanLog is created and,
only if the ticket is still ACTIVE, the ticket is flipped to USED with
`usedAt = scannedAt`. -/
def processScanLog (now : Nat) (st : Db × SyncReport) (it : SyncScanLogItem) :
    Db × SyncReport :=
  match st.1.scanLogs.find? (fun s => s.id == it.id) with
  | some _ =>
      (st.1, { st.2 with syncedScanLogs := st.2.syncedScanLogs ++ [it.id] })
  | none =>
    match st.1.tickets.find? (fun t => t.id == it.ticketId) with
    | some ticket =>
        let db1 : Db :=
          { st.1 with scanLogs := st.1.scanLogs ++ [ScanLog.fromSyncItem it] }
        let db2 : Db :=
          if ticket.status = .ACTIVE then
            { db1 with tickets := db1.tickets.map (fun t =>
                if t.id == it.ticketId then
                  { t with status := .USED, usedAt := some it.scannedAt,
                           updatedAt := now }
                else t) }
          else db1
        (db2, { st.2 with syncedScanLogs := st.2.syncedScanLogs ++ [it.id] })
    | none =>
        (st.1, { st.2 with errors := st.2.errors ++
            [{ type := "scanLog", id := it.id,
               error := "Associated ticket not found" }] })

/-- `POST /api/sync`: inside one transaction, process every ticket item and
then every scan-log item, accumulating the merge report. -/
def syncPOST (db : Db) (req : SyncRequest) (now : Nat) : Db × SyncReport :=
  req.scanLogs.foldl (processScanLog now)
    (req.tickets.foldl (processTicket now) (db, emptyReport))

/-- The ids of the ticket rows of a store state. -/
def ticketIds (db : Db) : List String := db.tickets.map (fun t => t.id)

/-- The ids of the scan-log rows of a store state. -/
def scanLogIds (db : Db) : List String := db.scanLogs.map (fun s => s.id)

/-! ### The Local Durable Store (`src/lib/indexedDB.ts`, Dexie over IndexedDB)

Each Dexie table is a list; `synced` is the 0/1 flag the source stores.
`new Date()` inside an operation is the explicit `now` argument. -/

/-- A `pendingTickets` row (`PendingTicket`). -/
structure PendingTicket where
  id : String
  eventName : String
  ticketType : String
  price : Int
  qrCode : String
  holderName : Option String
  holderEmail : Option String
  createdAt : Nat
  synced : Nat
deriving DecidableEq, Repr

/-- A `pendingScanLogs` row (`PendingScanLog`). -/
structure PendingScanLog where
  id : String
  ticketId : String
  scannedAt : Nat
  scannedBy : Option String
  location : Option String
  deviceInfo : Option String
  synced : Nat
deriving DecidableEq, Repr

/-- A `cachedTickets` row (`CachedTicket`). -/
structure CachedTicket where
  id : String
  eventName : String
  ticketType : String
  price : Int
  qrCode : String
  status : TicketStatus
  holderName : Option String
  holderEmail : Option String
  createdAt : Nat
  updatedAt : Nat
  usedAt : Option Nat
  lastSync : Nat
deriving DecidableEq, Repr

/-- The three collections of `TicketScannerDB`. -/
structure ClientStore where
  pendingTickets : List PendingTicket
  pendingScanLogs : List PendingScanLog
  cachedTickets : List CachedTicket
deriving DecidableEq, Repr

def emptyStore : ClientStore :=
  { pendingTickets := [], pendingScanLogs := [], cachedTickets := [] }

/-- `addPendingTicket`: insert with `synced: 0`. -/
def addPendingTicket (s : ClientStore) (t : PendingTicket) : ClientStore :=
  { s with pendingTickets := s.pendingTickets ++ [{ t with synced := 0 }] }

/-- `getPendingTickets`: `where("synced").equals(0)`. -/
def getPendingTickets (s : ClientStore) : List PendingTicket :=
  s.pendingTickets.filter (fun t => t.synced == 0)

/-- `markTicketAsSynced`: set `synced: 1` on the row with the given id. -/
def markTicketAsSynced (s : ClientStore) (i : String) : ClientStore :=
  { s with pendingTickets := s.pendingTickets.map (fun t =>
      if t.id == i then { t with synced := 1 } else t) }

/-- `clearSyncedTickets`: `where("synced").equals(1).delete()`. -/
def clearSyncedTickets (s : ClientStore) : ClientStore :=
  { s with pendingTickets := s.pendingTickets.filter (fun t => ¬ t.synced == 1) }

/-- `addPendingScanLog`: insert with `synced: 0`. -/
def addPendingScanLog (s : ClientStore) (l : PendingScanLog) : ClientStore :=
  { s with pendingScanLogs := s.pendingScanLogs ++ [{ l with synced := 0 }] }

/-- `getPendingScanLogs`: `where("synced").equals(0)`. -/
def getPendingScanLogs (s : ClientStore) : List PendingScanLog :=
  s.pendingScanLogs.filter (fun l => l.synced == 0)

/-- `markScanLogAsSynced`: set `synced: 1` on the row with the given id. -/
def markScanLogAsSynced (s : ClientStore) (i : String) : ClientStore :=
  { s with pendingScanLogs := s.pendingScanLogs.map (fun l =>
      if l.id == i then { l with synced := 1 } else l) }

/-- `clearSyncedScanLogs`: `where("synced").equals(1).delete()`. -/
def clearSyncedScanLogs (s : ClientStore) : ClientStore :=
  { s with pendingScanLogs := s.pendingScanLogs.filter (fun l => ¬ l.synced == 1) }

/-- `cacheTicket`: Dexie `put` (replace by primary key id, else insert), with
`lastSync` stamped `now`. -/
def cacheTicket (s : ClientStore) (now : Nat) (t : CachedTicket) : ClientStore :=
  if s.cachedTickets.any (fun c => c.id == t.id) then
    { s with cachedTickets := s.cachedTickets.map (fun c =>
        if c.id == t.id then { t with lastSync := now } else c) }
  else
    { s with cachedTickets := s.cachedTickets ++ [{ t with lastSync := now }] }

/-- `getCachedTicketByQR`: `where("qrCode").equals(qrCode).first()`. -/
def getCachedTicketByQR (s : ClientStore) (qr : String) : Option CachedTicket :=
  s.cachedTickets.find? (fun c => c.qrCode == qr)

/-- `updateCachedTicketStatus`: update status and `lastSync`, and `usedAt`
only when one is supplied. -/
def updateCachedTicketStatus (s : ClientStore) (now : Nat) (i : String)
    (status : TicketStatus) (usedAt : Option Nat) : ClientStore :=
  { s with cachedTickets := s.cachedTickets.map (fun c =>
      if c.id == i then
        { c with status := status, lastSync := now,
                 usedAt := match usedAt with | some u => some u | none => c.usedAt }
      else c) }

/-- `clearOldCache`: delete cache rows with `lastSync` below the cutoff. -/
def clearOldCache (s : ClientStore) (cutoff : Nat) : ClientStore :=
  { s with cachedTickets := s.cachedTickets.filter (fun c => ¬ c.lastSync < cutoff) }

/-- `cacheMultipleTickets`: `bulkPut`, i.e. `put` of each row in order. -/
def cacheMultipleTickets (s : ClientStore) (now : Nat)
    (ts : List CachedTicket) : ClientStore :=
  ts.foldl (fun acc t => cacheTicket acc now t) s

/-- The record returned by `getPendingSyncCount`. -/
structure PendingCounts where
  tickets : Nat
  scanLogs : Nat
  total : Nat
deriving DecidableEq, Repr

/-- `getPendingSyncCount`: count both pending collections at `synced = 0` and
add the two counts. -/
def getPendingSyncCount (s : ClientStore) : PendingCounts :=
  { tickets := s.pendingTickets.countP (fun t => t.synced == 0),
    scanLogs := s.pendingScanLogs.countP (fun l => l.synced == 0),
    total := s.pendingTickets.countP (fun t => t.synced == 0) +
             s.pendingScanLogs.countP (fun l => l.synced == 0) }

/-- `clearAllData`: clear the three collections. -/
def clearAllData (_ : ClientStore) : ClientStore := emptyStore

/-- One Local Durable Store operation (the API of `indexedDBOperations`
restricted to the mutating calls). -/
inductive StoreOp where
  | addPendingTicket (t : PendingTicket)
  | addPendingScanLog (l : PendingScanLog)
  | markTicketAsSynced (i : String)
  | markScanLogAsSynced (i : String)
  | clearSyncedTickets
  | clearSyncedScanLogs
  | cacheTicket (now : Nat) (t : CachedTicket)
  | cacheMultipleTickets (now : Nat) (ts : List CachedTicket)
  | updateCachedTicketStatus (now : Nat) (i : String) (status : TicketStatus)
      (usedAt : Option Nat)
  | clearOldCache (cutoff : Nat)
  | clearAllData
deriving Repr

/-- Apply one store operation. -/
def applyOp (s : ClientStore) : StoreOp → ClientStore
  | .addPendingTicket t => addPendingTicket s t
  | .addPendingScanLog l => addPendingScanLog s l
  | .markTicketAsSynced i => markTicketAsSynced s i
  | .markScanLogAsSynced i => markScanLogAsSynced s i
  | .clearSyncedTickets => clearSyncedTickets s
  | .clearSyncedScanLogs => clearSyncedScanLogs s
  | .cacheTicket now t => cacheTicket s now t
  | .cacheMultipleTickets now ts => cacheMultipleTickets s now ts
  | .updateCachedTicketStatus now i status usedAt =>
      updateCachedTicketStatus s now i status usedAt
  | .clearOldCache cutoff => clearOldCache s cutoff
  | .clearAllData => clearAllData s

/-- The store state after a sequence of operations starting from the freshly
opened (empty) database. -/
def applyOps (ops : List StoreOp) : ClientStore := ops.foldl applyOp emptyStore

/-! ### The manual reconciliation caller (`src/lib/sync.ts`) -/

/-- The fields of the server's sync response body that `performManualSync`
reads: `success`, `synced.tickets`, `synced.scanLogs`, `errors`. -/
structure SyncNetResponse where
  success : Bool
  syncedTickets : List String
  syncedScanLogs : List String
  errors : List SyncError
deriving DecidableEq, Repr

/-- The `SyncResult` interface returned to the UI. -/
structure SyncResult where
  success : Bool
  ticketsSynced : Nat
  scanLogsSynced : Nat
  errors : List SyncError
deriving DecidableEq, Repr

/-- The request body `performManualSync` builds from the pending collections
(`createdAt`/`scannedAt` serialised, `holderEmail || ""`). -/
def buildSyncRequest (pt : List PendingTicket) (pl : List PendingScanLog) :
    SyncRequest :=
  { tickets := pt.map (fun t =>
      { id := t.id, eventName := t.eventName, ticketType := t.ticketType,
        price := t.price, qrCode := t.qrCode, holderName := t.holderName,
        holderEmail := some (t.holderEmail.getD ""), createdAt := t.createdAt }),
    scanLogs := pl.map (fun l =>
      { id := l.id, ticketId := l.ticketId, scannedAt := l.scannedAt,
        scannedBy := l.scannedBy, location := l.location,
        deviceInfo := l.deviceInfo }) }

instance : DecidableEq (Except String SyncResult) := fun x y =>
  match x, y with
  | .ok a, .ok b =>
      if h : a = b then .isTrue (by rw [h]) else .isFalse (by simp [h])
  | .error a, .error b =>
      if h : a = b then .isTrue (by rw [h]) else .isFalse (by simp [h])
  | .ok _, .error _ => .isFalse (by simp)
  | .error _, .ok _ => .isFalse (by simp)

/-- What one `performManualSync` call produced: its return value (or the
message of the error it threw), the store it leaves behind, and the batch it
submitted to `/api/sync` (`none` when it returned early without a network
call). -/
structure ManualSyncOutcome where
  result : Except String SyncResult
  store : ClientStore
  submitted : Option SyncRequest
deriving DecidableEq, Repr

/-- `performManualSync` (`src/lib/sync.ts`): read both pending collections;
if both are empty return success `0/0/[]` at once; otherwise POST the batch.
A transport failure or `!response.ok` or an unsuccessful body throws.  On a
successful body, call `clearSyncedTickets` / `clearSyncedScanLogs` when the
corresponding success list is non-empty, and return the counts of the success
lists together with the reported per-item errors.  `net` is the network:
`none` models fetch failing or a non-OK status. -/
def performManualSync (s : ClientStore) (net : Option SyncNetResponse) :
    ManualSyncOutcome :=
  let pendingTickets := getPendingTickets s
  let pendingScanLogs := getPendingScanLogs s
  if pendingTickets.length = 0 ∧ pendingScanLogs.length = 0 then
    { result := .ok { success := true, ticketsSynced := 0,
                      scanLogsSynced := 0, errors := [] },
      store := s, submitted := none }
  else
    let syncData := buildSyncRequest pendingTickets pendingScanLogs
    match net with
    | none =>
        { result := .error "Sync failed", store := s, submitted := some syncData }
    | some r =>
      if r.success then
        let s1 := if 0 < r.syncedTickets.length then clearSyncedTickets s else s
        let s2 := if 0 < r.syncedScanLogs.length then clearSyncedScanLogs s1 else s1
        { result := .ok { success := true,
                          ticketsSynced := r.syncedTickets.length,
                          scanLogsSynced := r.syncedScanLogs.length,
                          errors := r.errors },
          store := s2, submitted := some syncData }
      else
        { result := .error "Sync failed", store := s, submitted := some syncData }

/-! ### The scan page (`src/app/scan/page.tsx`)

`ScanPageResult` keeps the machine-readable fields of the `ScanResult` the
page stores (`success`, `error`, `isOffline`); the human `message` strings
and the echoed ticket/scanLog payloads are presentation only.  The page's
`isProcessing` busy flag is set and cleared inside one call (`finally`), so
in the sequential model it is false at every entry and is not part of the
state. -/

/-- The machine-readable part of the page's `ScanResult`. -/
structure ScanPageResult where
  success : Bool
  error : Option String
  isOffline : Bool
deriving DecidableEq, Repr

/-- The fields of the `/api/scan` response body the page reads. -/
structure ScanApiBody where
  success : Bool
  error : Option String
deriving DecidableEq, Repr

/-- What one `processTicketScan` call did: rejected by the duplicate guard
(early return, previous result left on screen) or stored a new result. -/
inductive ScanOutcome where
  | duplicate
  | result (r : ScanPageResult)
deriving DecidableEq, Repr

/-- The page state a scan call touches: the remembered `lastScannedCode` and
the Local Durable Store. -/
structure ScanPageState where
  lastScannedCode : String
  store : ClientStore
deriving DecidableEq, Repr

/-- `performOfflineScan`: look the qrCode up in the cache — absent fails with
`TICKET_NOT_FOUND` (flagged offline); a non-ACTIVE cached status fails with
`TICKET_<status>`; otherwise synthesize a scan log (`uuidv4()` = `freshId`,
`new Date()` = `now`, `navigator.userAgent` = `ua`), enqueue it as pending,
and set the cached ticket to USED with `usedAt = now`. -/
def performOfflineScan (s : ClientStore) (qr : String) (freshId : String)
    (now : Nat) (ua : String) : ClientStore × ScanPageResult :=
  match getCachedTicketByQR s qr with
  | none =>
      (s, { success := false, error := some "TICKET_NOT_FOUND", isOffline := true })
  | some cachedTicket =>
    if cachedTicket.status ≠ .ACTIVE then
      (s, { success := false,
            error := some ("TICKET_" ++ cachedTicket.status.name),
            isOffline := true })
    else
      let scanLog : PendingScanLog :=
        { id := freshId, ticketId := cachedTicket.id, scannedAt := now,
          scannedBy := some "Scanner App (Offline)",
          location := some "Event Entrance", deviceInfo := some ua, synced := 0 }
      let s1 := addPendingScanLog s scanLog
      let s2 := updateCachedTicketStatus s1 now cachedTicket.id .USED (some now)
      (s2, { success := true, error := none, isOffline := true })

/-- `processTicketScan`: the duplicate guard fires when the payload equals
`lastScannedCode`; otherwise the payload is remembered and dispatched — when
`isOnline`, to the authoritative fetch (`net = none` models the fetch
throwing; the catch re-checks the same captured `isOnline`), and when
offline, to `performOfflineScan`. -/
def processTicketScan (st : ScanPageState) (qr : String) (isOnline : Bool)
    (net : Option ScanApiBody) (freshId : String) (now : Nat) (ua : String) :
    ScanPageState × ScanOutcome :=
  if st.lastScannedCode == qr then
    (st, .duplicate)
  else
    let st1 : ScanPageState := { st with lastScannedCode := qr }
    if isOnline then
      match net with
      | some body =>
        if body.success then
          (st1, .result { success := true, error := none, isOffline := false })
        else
          (st1, .result { success := false, error := body.error, isOffline := false })
      | none =>
        if ¬ isOnline then
          let offline := performOfflineScan st1.store qr freshId now ua
          ({ st1 with store := offline.1 }, .result offline.2)
        else
          (st1, .result { success := false, error := some "Network error",
                          isOffline := false })
    else
      let offline := performOfflineScan st1.store qr freshId now ua
      ({ st1 with store := offline.1 }, .result offline.2)

/-! ### Concrete fixtures for witnesses and counterexamples -/

/-- A minimal server ticket with the given id (and qrCode equal to it) and
status. -/
def sampleTicket (i : String) (st : TicketStatus) : Ticket :=
  { id := i, qrCode := i, eventName := "Event", ticketType := "Standard",
    price := 5, holderName := none, holderEmail := none, status := st,
    createdAt := 0, updatedAt := 0, usedAt := none }

/-- A server store holding the single ACTIVE ticket "T1". -/
def dbT1 : Db := { tickets := [sampleTicket "T1" .ACTIVE], scanLogs := [] }

/-- An authoritative scan request for "T1". -/
def reqT1 : ScanRequest :=
  { qrCode := "T1", scannedBy := some "Scanner App",
    location := some "Event Entrance", deviceInfo := none }

/-- A batch scan-log item referencing ticket "T1", scanned offline at 7. -/
def slItemT1 : SyncScanLogItem :=
  { id := "L1", ticketId := "T1", scannedAt := 7, scannedBy := none,
    location := none, deviceInfo := none }

/-- A pending client ticket "PT1", not yet synced. -/
def pendingPT1 : PendingTicket :=
  { id := "PT1", eventName := "Event", ticketType := "Standard", price := 5,
    qrCode := "PT1", holderName := none, holderEmail := none, createdAt := 0,
    synced := 0 }

/-- A client store whose only content is the pending ticket "PT1". -/
def storePT1 : ClientStore :=
  { pendingTickets := [pendingPT1], pendingScanLogs := [], cachedTickets := [] }

/-- A successful reconciliation response reporting "PT1" as synced. -/
def respPT1 : SyncNetResponse :=
  { success := true, syncedTickets := ["PT1"], syncedScanLogs := [],
    errors := [] }

/-- A cached replica of ticket "T1" (qrCode "Q1"), status ACTIVE. -/
def cachedT1 : CachedTicket :=
  { id := "T1", eventName := "Event", ticketType := "Standard", price := 5,
    qrCode := "Q1", status := .ACTIVE, holderName := none, holderEmail := none,
    createdAt := 0, updatedAt := 0, usedAt := none, lastSync := 0 }

/-- A client store whose cache holds exactly `cachedT1`. -/
def storeC1 : ClientStore :=
  { pendingTickets := [], pendingScanLogs := [], cachedTickets := [cachedT1] }

/-- A server store holding the single already-USED ticket "T1". -/
def dbUsed : Db := { tickets := [sampleTicket "T1" .USED], scanLogs := [] }

/-- A batch ticket item "PT1". -/
def syncItemPT1 : SyncTicketItem :=
  { id := "PT1", eventName := "Event", ticketType := "Standard", price := 5,
    qrCode := "PT1", holderName := none, holderEmail := none, createdAt := 0 }

/-- A reconciliation batch carrying one new ticket and one scan log. -/
def reqSync : SyncRequest := { tickets := [syncItemPT1], scanLogs := [slItemT1] }
/-- `find?` still finds the updated row after a keyed in-place update: if `a`
was the first row satisfying `p`, every row is rewritten to `u` when it
satisfies `q`, the replacement `u` satisfies `p`, and `a` satisfies `q`, then
the first row satisfying `p` in the rewritten list is `u`. -/
theorem find?_map_if {α : Type} (p q : α → Bool) (u : α) :
    ∀ (l : List α) (a : α), l.find? p = some a → p u = true → q a = true →
      (l.map (fun x => if q x then u else x)).find? p = some u := by
  intro l
  induction l with
  | nil => intro a h; simp at h
  | cons x l ih =>
    intro a h hpu hqa
    by_cases hpx : p x = true
    · rw [List.find?_cons_of_pos _ hpx] at h
      injection h with h
      subst h
      simp only [List.map_cons, hqa, if_true]
      exact List.find?_cons_of_pos _ hpu
    · have hpx' : p x = false := by
        cases hx : p x
        · rfl
        · exact absurd hx hpx
      rw [List.find?_cons_of_neg _ (by simp [hpx'])] at h
      simp only [List.map_cons]
      by_cases hqx : q x = true
      · simp only [hqx, if_true]
        exact List.find?_cons_of_pos _ hpu
      · simp only [hqx, if_false]
        rw [List.find?_cons_of_neg _ (by simp [hpx'])]
        exact ih a h hpu hqa

/-- An authoritative scan that finds a USED ticket is rejected with 409
`TICKET_USED` and leaves the store untouched. -/
theorem scanPOST_used (db : Db) (req : ScanRequest) (n : Nat) (fid : String)
    (u : Ticket)
    (h : db.tickets.find? (fun x => x.qrCode == req.qrCode) = some u)
    (hu : u.status = .USED) :
    scanPOST db req n fid = (db, .err 409 "TICKET_USED") := by
  unfold scanPOST
  rw [h]
  simp only [hu, TicketStatus.name, ne_eq]
  rw [if_pos (by decide : ¬ (TicketStatus.USED = TicketStatus.ACTIVE))]
  rfl

/-- C1: an authoritative scan of a ticket whose stored status is ACTIVE
succeeds (the ticket becomes USED and exactly one ScanLog row is added), and
an immediately following authoritative scan of the same qrCode fails with
`TICKET_USED` (HTTP 409) leaving the store unchanged — never two successes. -/
theorem scanPOST_twice_second_TICKET_USED
    (db : Db) (req : ScanRequest) (t : Ticket) (n1 n2 : Nat) (id1 id2 : String)
    (hfind : db.tickets.find? (fun x => x.qrCode == req.qrCode) = some t)
    (hact : t.status = .ACTIVE) :
    ∃ u lg,
      (scanPOST db req n1 id1).2 = .ok u lg ∧
      u.status = .USED ∧
      (scanPOST db req n1 id1).1.tickets.find?
          (fun x => x.qrCode == req.qrCode) = some u ∧
      (scanPOST db req n1 id1).1.scanLogs.length = db.scanLogs.length + 1 ∧
      scanPOST (scanPOST db req n1 id1).1 req n2 id2 =
        ((scanPOST db req n1 id1).1, .err 409 "TICKET_USED") := by
  have hpt := List.find?_some hfind
  have h1 : scanPOST db req n1 id1 =
      ({ tickets :=
           db.tickets.map (fun x =>
             if x.id == t.id then
               { t with status := .USED, usedAt := some n1, updatedAt := n1 }
             else x),
         scanLogs := db.scanLogs ++
           [{ id := id1, ticketId := t.id, scannedAt := n1,
              scannedBy := req.scannedBy, location := req.location,
              deviceInfo := req.deviceInfo }] },
       .ok { t with status := .USED, usedAt := some n1, updatedAt := n1 }
           { id := id1, ticketId := t.id, scannedAt := n1,
             scannedBy := req.scannedBy, location := req.location,
             deviceInfo := req.deviceInfo }) := by
    unfold scanPOST
    rw [hfind]
    simp [hact]
  refine ⟨{ t with status := .USED, usedAt := some n1, updatedAt := n1 },
          { id := id1, ticketId := t.id, scannedAt := n1,
            scannedBy := req.scannedBy, location := req.location,
            deviceInfo := req.deviceInfo }, ?_, rfl, ?_, ?_, ?_⟩
  · rw [h1]
  · rw [h1]
    exact find?_map_if _ _ _ db.tickets t hfind hpt (by simp)
  · rw [h1]; simp
  · have h2 : (scanPOST db req n1 id1).1.tickets.find?
        (fun x => x.qrCode == req.qrCode) =
        some { t with status := .USED, usedAt := some n1, updatedAt := n1 } := by
      rw [h1]
      exact find?_map_if _ _ _ db.tickets t hfind hpt (by simp)
    exact scanPOST_used _ _ _ _ _ h2 rfl

/-- Witness for C1 at a concrete store: ticket "T1" is ACTIVE in `dbT1`. -/
theorem scanPOST_twice_second_TICKET_USED_witness :
    ∃ u lg,
      (scanPOST dbT1 reqT1 1 "L1").2 = .ok u lg ∧
      u.status = .USED ∧
      (scanPOST dbT1 reqT1 1 "L1").1.tickets.find?
          (fun x => x.qrCode == reqT1.qrCode) = some u ∧
      (scanPOST dbT1 reqT1 1 "L1").1.scanLogs.length = dbT1.scanLogs.length + 1 ∧
      scanPOST (scanPOST dbT1 reqT1 1 "L1").1 reqT1 2 "L2" =
        ((scanPOST dbT1 reqT1 1 "L1").1, .err 409 "TICKET_USED") :=
  scanPOST_twice_second_TICKET_USED dbT1 reqT1 (sampleTicket "T1" .ACTIVE)
    1 2 "L1" "L2" (by decide) rfl

/-- C9: after any sequence of Local Durable Store operations, the counts
returned by `getPendingSyncCount` are the lengths of the unsynced listings,
and `total` is their sum. -/
theorem getPendingSyncCount_consistent (ops : List StoreOp) :
    (getPendingSyncCount (applyOps ops)).tickets =
        (getPendingTickets (applyOps ops)).length ∧
    (getPendingSyncCount (applyOps ops)).scanLogs =
        (getPendingScanLogs (applyOps ops)).length ∧
    (getPendingSyncCount (applyOps ops)).total =
        (getPendingTickets (applyOps ops)).length +
        (getPendingScanLogs (applyOps ops)).length := by
  refine ⟨?_, ?_, ?_⟩ <;>
    simp [getPendingSyncCount, getPendingTickets, getPendingScanLogs,
          List.countP_eq_length_filter]

/-- C10: with nothing pending, `performManualSync` returns success with zero
counts and no errors, submits no batch, and leaves the store untouched. -/
theorem performManualSync_nothing_pending (s : ClientStore)
    (net : Option SyncNetResponse)
    (ht : getPendingTickets s = []) (hl : getPendingScanLogs s = []) :
    performManualSync s net =
      { result := .ok { success := true, ticketsSynced := 0, scanLogsSynced := 0,
                        errors := [] },
        store := s, submitted := none } := by
  simp [performManualSync, ht, hl]

/-- Witness for C10 on the empty store. -/
theorem performManualSync_nothing_pending_witness :
    performManualSync emptyStore none =
      { result := .ok { success := true, ticketsSynced := 0, scanLogsSynced := 0,
                        errors := [] },
        store := emptyStore, submitted := none } :=
  performManualSync_nothing_pending emptyStore none rfl rfl

/-- C5 (bug evidence): the pending ticket "PT1" is reported synced by the
server, `performManualSync` returns success counting it, yet the entry is
still returned by the unsynced listing afterwards: the caller never invokes
`markTicketAsSynced`, and `clearSyncedTickets` deletes only rows with
`synced = 1`, of which there are none. -/
theorem performManualSync_leaves_reported_entry_pending :
    (performManualSync storePT1 (some respPT1)).result =
      .ok { success := true, ticketsSynced := 1, scanLogsSynced := 0,
            errors := [] } ∧
    getPendingTickets (performManualSync storePT1 (some respPT1)).store =
      [pendingPT1] := by decide

/-- C6 counterexample: on an empty cache the offline validation of "Q1" does
fail, but its error code is the string `TICKET_NOT_FOUND` — not
`NOT_FOUND_OFFLINE`. -/
theorem performOfflineScan_absent_code_counterexample :
    getCachedTicketByQR emptyStore "Q1" = none ∧
    (performOfflineScan emptyStore "Q1" "L1" 5 "UA").2.success = false ∧
    (performOfflineScan emptyStore "Q1" "L1" 5 "UA").2.error ≠
      some "NOT_FOUND_OFFLINE" := by decide

/-- C6 amended: a qrCode absent from the cache makes offline validation fail
with code `TICKET_NOT_FOUND` flagged `isOffline := true` — the same code
string the authoritative path uses; the offline origin is carried by the
flag, not by a distinct code.  The store is left unchanged. -/
theorem performOfflineScan_absent (s : ClientStore) (qr fid ua : String)
    (now : Nat) (h : getCachedTicketByQR s qr = none) :
    performOfflineScan s qr fid now ua =
      (s, { success := false, error := some "TICKET_NOT_FOUND",
            isOffline := true }) := by
  unfold performOfflineScan
  rw [h]

/-- Witness for the amended C6 on the empty cache. -/
theorem performOfflineScan_absent_witness :
    performOfflineScan emptyStore "Q1" "L1" 5 "UA" =
      (emptyStore, { success := false, error := some "TICKET_NOT_FOUND",
                     isOffline := true }) :=
  performOfflineScan_absent emptyStore "Q1" "L1" "UA" 5 rfl

/-- C7 counterexample: with a cached ACTIVE replica of the scanned ticket and
the connectivity signal online, a transport failure of the authoritative
attempt surfaces the "Network error" failure directly — the store is
unchanged (no pending scan log is enqueued) and the result is not offline —
even though the optimistic path would have succeeded on the same input: no
offline fallback happens. -/
theorem processTicketScan_no_fallback_counterexample :
    processTicketScan ⟨"", storeC1⟩ "Q1" true none "L1" 5 "UA" =
      (⟨"Q1", storeC1⟩,
       .result { success := false, error := some "Network error",
                 isOffline := false }) ∧
    (performOfflineScan storeC1 "Q1" "L1" 5 "UA").2.success = true := by decide

/-- C7 amended: when the connectivity signal reads online at the start of the
call, a transport failure of the authoritative attempt is surfaced as a
"Network error" failure with no offline fallback and no store change; the
optimistic path runs exactly when the signal reads offline at the start of
the call (the catch branch that would fall back re-reads the same captured
value, so it is unreachable while online). -/
theorem processTicketScan_transport (st : ScanPageState) (qr fid ua : String)
    (now : Nat) (h : st.lastScannedCode ≠ qr) :
    processTicketScan st qr true none fid now ua =
      ({ st with lastScannedCode := qr },
       .result { success := false, error := some "Network error",
                 isOffline := false }) ∧
    (∀ net, processTicketScan st qr false net fid now ua =
      ({ st with lastScannedCode := qr,
                 store := (performOfflineScan st.store qr fid now ua).1 },
       .result (performOfflineScan st.store qr fid now ua).2)) := by
  have hb : (st.lastScannedCode == qr) = false := by
    simp [h]
  constructor
  · simp [processTicketScan, hb]
  · intro net
    simp [processTicketScan, hb]

/-- Witness for the amended C7. -/
theorem processTicketScan_transport_witness :
    processTicketScan ⟨"X", storeC1⟩ "Q1" true none "L1" 5 "UA" =
      (⟨"Q1", storeC1⟩,
       .result { success := false, error := some "Network error",
                 isOffline := false }) :=
  (processTicketScan_transport ⟨"X", storeC1⟩ "Q1" "L1" "UA" 5 (by decide)).1

/-- C8 counterexample: the first scan of "Q1" fails (`TICKET_NOT_FOUND`
offline, empty cache) — it is not a successfully-processed payload — yet
re-presenting "Q1" is rejected by the duplicate guard. -/
theorem duplicate_guard_after_failure_counterexample :
    processTicketScan ⟨"", emptyStore⟩ "Q1" false none "L1" 5 "UA" =
      (⟨"Q1", emptyStore⟩,
       .result { success := false, error := some "TICKET_NOT_FOUND",
                 isOffline := true }) ∧
    processTicketScan ⟨"Q1", emptyStore⟩ "Q1" false none "L2" 6 "UA" =
      (⟨"Q1", emptyStore⟩, .duplicate) := by decide

/-- C8 amended: the guard rejects — by early return, before either validation
mode runs and with no `DUPLICATE_SCAN`-coded result — exactly when the
payload equals the immediately preceding processed payload, whether that
attempt succeeded or failed; every processed payload becomes the remembered
one, so a differing payload is never rejected by the guard. -/
theorem processTicketScan_guard (st : ScanPageState) (qr : String)
    (isOnline : Bool) (net : Option ScanApiBody) (fid : String) (now : Nat)
    (ua : String) :
    ((processTicketScan st qr isOnline net fid now ua).2 = .duplicate ↔
      st.lastScannedCode = qr) ∧
    (st.lastScannedCode = qr →
      processTicketScan st qr isOnline net fid now ua = (st, .duplicate)) ∧
    (st.lastScannedCode ≠ qr →
      (processTicketScan st qr isOnline net fid now ua).1.lastScannedCode = qr) := by
  by_cases h : st.lastScannedCode = qr
  · have hb : (st.lastScannedCode == qr) = true := by simp [h]
    refine ⟨?_, fun _ => ?_, fun hc => absurd h hc⟩ <;>
      simp [processTicketScan, hb, h]
  · have hb : (st.lastScannedCode == qr) = false := by simp [h]
    have hnd : (processTicketScan st qr isOnline net fid now ua).2 ≠ .duplicate ∧
        (processTicketScan st qr isOnline net fid now ua).1.lastScannedCode = qr := by
      cases isOnline
      · simp [processTicketScan, hb]
      · cases net with
        | some body =>
          cases hbs : body.success <;> simp [processTicketScan, hb, hbs]
        | none => simp [processTicketScan, hb]
    exact ⟨⟨fun hd => absurd hd hnd.1, fun hc => absurd hc h⟩,
           fun hc => absurd hc h, fun _ => hnd.2⟩

/-- Witness for the amended C8: an identical re-presentation is rejected, a
differing one is processed and remembered. -/
theorem processTicketScan_guard_witness :
    processTicketScan ⟨"Q1", emptyStore⟩ "Q1" true none "L1" 5 "UA" =
      (⟨"Q1", emptyStore⟩, .duplicate) ∧
    (processTicketScan ⟨"Q1", emptyStore⟩ "Q2" true none "L1" 5 "UA").1.lastScannedCode
      = "Q2" :=
  ⟨(processTicketScan_guard ⟨"Q1", emptyStore⟩ "Q1" true none "L1" 5 "UA").2.1 rfl,
   (processTicketScan_guard ⟨"Q1", emptyStore⟩ "Q2" true none "L1" 5 "UA").2.2
     (by decide)⟩

/-- C3: a new scan-log item whose referenced ticket exists with a non-ACTIVE
authoritative status still gets its ScanLog row created and its id counted as
synced, while the tickets table — hence the ticket's status and usedAt — is
left exactly as it was. -/
theorem processScanLog_conflict (now : Nat) (db : Db) (rep : SyncReport)
    (it : SyncScanLogItem) (tk : Ticket)
    (hnew : db.scanLogs.find? (fun s => s.id == it.id) = none)
    (htk : db.tickets.find? (fun t => t.id == it.ticketId) = some tk)
    (hst : tk.status ≠ .ACTIVE) :
    processScanLog now (db, rep) it =
      ({ db with scanLogs := db.scanLogs ++ [ScanLog.fromSyncItem it] },
       { rep with syncedScanLogs := rep.syncedScanLogs ++ [it.id] }) := by
  simp [processScanLog, hnew, htk, hst]

/-- Witness for C3: item "L1" against the already-USED ticket "T1". -/
theorem processScanLog_conflict_witness :
    processScanLog 9 (dbUsed, emptyReport) slItemT1 =
      ({ dbUsed with scanLogs := dbUsed.scanLogs ++ [ScanLog.fromSyncItem slItemT1] },
       { emptyReport with
           syncedScanLogs := emptyReport.syncedScanLogs ++ ["L1"] }) :=
  processScanLog_conflict 9 dbUsed emptyReport slItemT1
    (sampleTicket "T1" .USED) rfl (by decide) (by decide)

/-- `find?` finds the rewritten first match after an in-place keyed update
that rewrites exactly the rows matching the search predicate, provided the
rewrite preserves the predicate on the found row. -/
theorem find?_map_same {α : Type} (p : α → Bool) (f : α → α) :
    ∀ (l : List α) (a : α), l.find? p = some a → p (f a) = true →
      (l.map (fun x => if p x then f x else x)).find? p = some (f a) := by
  intro l
  induction l with
  | nil => intro a h; simp at h
  | cons x l ih =>
    intro a h hpf
    by_cases hpx : p x = true
    · rw [List.find?_cons_of_pos _ hpx] at h
      injection h with h
      subst h
      simp only [List.map_cons, hpx, if_true]
      exact List.find?_cons_of_pos _ hpf
    · have hpx' : p x = false := by
        cases hx : p x
        · rfl
        · exact absurd hx hpx
      rw [List.find?_cons_of_neg _ (by simp [hpx'])] at h
      simp only [List.map_cons, hpx', Bool.false_eq_true, if_false]
      rw [List.find?_cons_of_neg _ (by simp [hpx'])]
      exact ih a h hpf

/-- C4: a new scan-log item whose referenced ticket exists with status ACTIVE
creates the ScanLog row and flips the ticket to USED with
`usedAt = scannedAt` — the offline scan time carried by the item — while the
reconciliation-time clock `now` only lands in `updatedAt`. -/
theorem processScanLog_flip_usedAt (now : Nat) (db : Db) (rep : SyncReport)
    (it : SyncScanLogItem) (tk : Ticket)
    (hnew : db.scanLogs.find? (fun s => s.id == it.id) = none)
    (htk : db.tickets.find? (fun t => t.id == it.ticketId) = some tk)
    (hst : tk.status = .ACTIVE) :
    processScanLog now (db, rep) it =
      ({ tickets := db.tickets.map (fun t =>
            if t.id == it.ticketId then
              { t with status := .USED, usedAt := some it.scannedAt,
                       updatedAt := now }
            else t),
         scanLogs := db.scanLogs ++ [ScanLog.fromSyncItem it] },
       { rep with syncedScanLogs := rep.syncedScanLogs ++ [it.id] }) ∧
    (processScanLog now (db, rep) it).1.tickets.find?
        (fun t => t.id == it.ticketId) =
      some { tk with status := .USED, usedAt := some it.scannedAt,
                     updatedAt := now } := by
  have hq := List.find?_some htk
  have h1 : processScanLog now (db, rep) it =
      ({ tickets := db.tickets.map (fun t =>
            if t.id == it.ticketId then
              { t with status := .USED, usedAt := some it.scannedAt,
                       updatedAt := now }
            else t),
         scanLogs := db.scanLogs ++ [ScanLog.fromSyncItem it] },
       { rep with syncedScanLogs := rep.syncedScanLogs ++ [it.id] }) := by
    simp [processScanLog, hnew, htk, hst]
  have hq' : (tk.id == it.ticketId) = true := by simpa using hq
  refine ⟨h1, ?_⟩
  rw [h1]
  exact find?_map_same (fun t => t.id == it.ticketId)
    (fun t => { t with status := .USED, usedAt := some it.scannedAt,
                       updatedAt := now })
    db.tickets tk htk hq'

/-- Witness for C4: item "L1" (scannedAt 7) against the ACTIVE ticket "T1",
reconciled at time 9: usedAt becomes 7, not 9. -/
theorem processScanLog_flip_usedAt_witness :
    (processScanLog 9 (dbT1, emptyReport) slItemT1).1.tickets.find?
        (fun t => t.id == slItemT1.ticketId) =
      some { (sampleTicket "T1" .ACTIVE) with
             status := .USED, usedAt := some slItemT1.scannedAt,
             updatedAt := 9 } :=
  (processScanLog_flip_usedAt 9 dbT1 emptyReport slItemT1
    (sampleTicket "T1" .ACTIVE) rfl (by decide) rfl).2

/-- A ticket-loop step always pushes exactly the item's id onto the ticket
success list and touches nothing else in the report. -/
theorem processTicket_snd (now : Nat) (st : Db × SyncReport) (it : SyncTicketItem) :
    (processTicket now st it).2 =
      { st.2 with syncedTickets := st.2.syncedTickets ++ [it.id] } := by
  cases hf : st.1.tickets.find? (fun t => t.id == it.id) <;>
    simp [processTicket, hf]

/-- A ticket-loop step never removes a ticket id. -/
theorem processTicket_ticketIds_mono (now : Nat) (st : Db × SyncReport)
    (it : SyncTicketItem) (i : String) (h : i ∈ ticketIds st.1) :
    i ∈ ticketIds (processTicket now st it).1 := by
  cases hf : st.1.tickets.find? (fun t => t.id == it.id) with
  | some x => simpa [processTicket, hf] using h
  | none =>
      simp only [ticketIds, List.mem_map] at h
      obtain ⟨a, ha, hida⟩ := h
      simp only [processTicket, hf, ticketIds, List.mem_map]
      exact ⟨a, List.mem_append_left _ ha, hida⟩

/-- After a ticket-loop step the processed item's id is present. -/
theorem processTicket_ticketIds_self (now : Nat) (st : Db × SyncReport)
    (it : SyncTicketItem) :
    it.id ∈ ticketIds (processTicket now st it).1 := by
  cases hf : st.1.tickets.find? (fun t => t.id == it.id) with
  | some x =>
      have hx := List.find?_some hf
      have hmem := List.mem_of_find?_eq_some hf
      simp only [processTicket, hf, ticketIds, List.mem_map]
      exact ⟨x, hmem, by simpa using hx⟩
  | none =>
      simp only [processTicket, hf, ticketIds, List.mem_map]
      exact ⟨Ticket.fromSyncItem it now, List.mem_append_right _ (by simp), rfl⟩

/-- A ticket-loop step on an item whose id already exists leaves the store
untouched. -/
theorem processTicket_noop (now : Nat) (st : Db × SyncReport)
    (it : SyncTicketItem) (h : it.id ∈ ticketIds st.1) :
    (processTicket now st it).1 = st.1 := by
  cases hf : st.1.tickets.find? (fun t => t.id == it.id) with
  | some x => simp [processTicket, hf]
  | none =>
      exfalso
      rw [List.find?_eq_none] at hf
      simp only [ticketIds, List.mem_map] at h
      obtain ⟨a, ha, hida⟩ := h
      exact hf a ha (by simp [hida])

/-- A scan-log-loop step never touches the ticket success list. -/
theorem processScanLog_syncedTickets (now : Nat) (st : Db × SyncReport)
    (it : SyncScanLogItem) :
    (processScanLog now st it).2.syncedTickets = st.2.syncedTickets := by
  cases hf : st.1.scanLogs.find? (fun s => s.id == it.id) with
  | some x => simp [processScanLog, hf]
  | none =>
      cases hft : st.1.tickets.find? (fun t => t.id == it.ticketId) with
      | some tk => simp [processScanLog, hf, hft]
      | none => simp [processScanLog, hf, hft]

/-- A scan-log-loop step preserves the set of ticket ids (the only ticket
write is an in-place keyed status update). -/
theorem processScanLog_ticketIds (now : Nat) (st : Db × SyncReport)
    (it : SyncScanLogItem) :
    ticketIds (processScanLog now st it).1 = ticketIds st.1 := by
  cases hf : st.1.scanLogs.find? (fun s => s.id == it.id) with
  | some x => simp [processScanLog, hf]
  | none =>
      cases hft : st.1.tickets.find? (fun t => t.id == it.ticketId) with
      | none => simp [processScanLog, hf, hft]
      | some tk =>
          by_cases ha : tk.status = .ACTIVE
          · simp only [processScanLog, hf, hft, ha, if_true, ticketIds,
                       List.map_map]
            refine List.map_congr_left ?_
            intro a _
            by_cases hid : a.id = it.ticketId <;> simp [hid]
          · simp [processScanLog, hf, hft, ha, ticketIds]

/-- A scan-log-loop step never removes a scan-log id. -/
theorem processScanLog_scanLogIds_mono (now : Nat) (st : Db × SyncReport)
    (it : SyncScanLogItem) (i : String) (h : i ∈ scanLogIds st.1) :
    i ∈ scanLogIds (processScanLog now st it).1 := by
  simp only [scanLogIds, List.mem_map] at h
  obtain ⟨a, ha, hida⟩ := h
  cases hf : st.1.scanLogs.find? (fun s => s.id == it.id) with
  | some x =>
      simp only [processScanLog, hf, scanLogIds, List.mem_map]
      exact ⟨a, ha, hida⟩
  | none =>
      cases hft : st.1.tickets.find? (fun t => t.id == it.ticketId) with
      | none =>
          simp only [processScanLog, hf, hft, scanLogIds, List.mem_map]
          exact ⟨a, ha, hida⟩
      | some tk =>
          by_cases hact : tk.status = .ACTIVE <;>
          · simp only [processScanLog, hf, hft, hact, scanLogIds, List.mem_map,
                       if_true, if_false]
            exact ⟨a, List.mem_append_left _ ha, hida⟩

/-- After a scan-log-loop step, the item's id is recorded as a row or its
referenced ticket is absent. -/
theorem processScanLog_covers_step (now : Nat) (st : Db × SyncReport)
    (it : SyncScanLogItem) :
    it.id ∈ scanLogIds (processScanLog now st it).1 ∨
    it.ticketId ∉ ticketIds (processScanLog now st it).1 := by
  cases hf : st.1.scanLogs.find? (fun s => s.id == it.id) with
  | some x =>
      left
      have hx := List.find?_some hf
      have hmem := List.mem_of_find?_eq_some hf
      simp only [processScanLog, hf, scanLogIds, List.mem_map]
      exact ⟨x, hmem, by simpa using hx⟩
  | none =>
      cases hft : st.1.tickets.find? (fun t => t.id == it.ticketId) with
      | some tk =>
          left
          by_cases hact : tk.status = .ACTIVE <;>
          · simp only [processScanLog, hf, hft, hact, scanLogIds, List.mem_map,
                       if_true, if_false]
            exact ⟨ScanLog.fromSyncItem it, List.mem_append_right _ (by simp),
                   rfl⟩
      | none =>
          right
          simp only [processScanLog, hf, hft, ticketIds, List.mem_map]
          rw [List.find?_eq_none] at hft
          rintro ⟨a, ha, hida⟩
          exact hft a ha (by simp [hida])

/-- Every id a scan-log-loop step pushes onto the success list was already
there or is the item's id, by then present as a row. -/
theorem processScanLog_synced_step (now : Nat) (st : Db × SyncReport)
    (it : SyncScanLogItem) (i : String)
    (h : i ∈ (processScanLog now st it).2.syncedScanLogs) :
    i ∈ st.2.syncedScanLogs ∨
      (i = it.id ∧ i ∈ scanLogIds (processScanLog now st it).1) := by
  cases hf : st.1.scanLogs.find? (fun s => s.id == it.id) with
  | some x =>
      simp only [processScanLog, hf, List.mem_append, List.mem_singleton] at h
      rcases h with h | h
      · exact Or.inl h
      · refine Or.inr ⟨h, ?_⟩
        have hx := List.find?_some hf
        have hmem := List.mem_of_find?_eq_some hf
        simp only [processScanLog, hf, scanLogIds, List.mem_map]
        exact ⟨x, hmem, by simp [h]; simpa using hx⟩
  | none =>
      cases hft : st.1.tickets.find? (fun t => t.id == it.ticketId) with
      | none =>
          simp only [processScanLog, hf, hft] at h
          exact Or.inl h
      | some tk =>
          have hmem : i ∈ st.2.syncedScanLogs ++ [it.id] := by
            by_cases hact : tk.status = .ACTIVE <;>
              simpa [processScanLog, hf, hft, hact] using h
          rcases List.mem_append.mp hmem with h' | h'
          · exact Or.inl h'
          · have hi : i = it.id := by simpa using h'
            refine Or.inr ⟨hi, ?_⟩
            by_cases hact : tk.status = .ACTIVE <;>
            · simp only [processScanLog, hf, hft, hact, scanLogIds,
                         List.mem_map, if_true, if_false]
              exact ⟨ScanLog.fromSyncItem it, List.mem_append_right _ (by simp),
                     by simp [hi, ScanLog.fromSyncItem]⟩

/-- The ticket loop appends exactly the batch's item ids to the ticket
success list. -/
theorem ticketLoop_syncedTickets (now : Nat) :
    ∀ (its : List SyncTicketItem) (st : Db × SyncReport),
      (its.foldl (processTicket now) st).2.syncedTickets =
        st.2.syncedTickets ++ its.map (fun it => it.id) := by
  intro its
  induction its with
  | nil => intro st; simp
  | cons it its ih =>
      intro st
      rw [List.foldl_cons, ih, processTicket_snd]
      simp

/-- The ticket loop never touches the scan-log success list. -/
theorem ticketLoop_syncedScanLogs (now : Nat) :
    ∀ (its : List SyncTicketItem) (st : Db × SyncReport),
      (its.foldl (processTicket now) st).2.syncedScanLogs =
        st.2.syncedScanLogs := by
  intro its
  induction its with
  | nil => intro st; simp
  | cons it its ih =>
      intro st
      rw [List.foldl_cons, ih, processTicket_snd]

/-- The ticket loop never removes a ticket id. -/
theorem ticketLoop_ticketIds_mono (now : Nat) :
    ∀ (its : List SyncTicketItem) (st : Db × SyncReport) (i : String),
      i ∈ ticketIds st.1 → i ∈ ticketIds (its.foldl (processTicket now) st).1 := by
  intro its
  induction its with
  | nil => intro st i h; simpa using h
  | cons it its ih =>
      intro st i h
      rw [List.foldl_cons]
      exact ih _ i (processTicket_ticketIds_mono now st it i h)

/-- After the ticket loop every batch item's id is a ticket id. -/
theorem ticketLoop_covers (now : Nat) :
    ∀ (its : List SyncTicketItem) (st : Db × SyncReport) (it : SyncTicketItem),
      it ∈ its → it.id ∈ ticketIds (its.foldl (processTicket now) st).1 := by
  intro its
  induction its with
  | nil => intro st it h; simp at h
  | cons hd its ih =>
      intro st it h
      rw [List.foldl_cons]
      rcases List.mem_cons.mp h with h | h
      · subst h
        exact ticketLoop_ticketIds_mono now its _ it.id
          (processTicket_ticketIds_self now st it)
      · exact ih _ it h

/-- When every batch item's id already exists, the ticket loop leaves the
store untouched. -/
theorem ticketLoop_noop (now : Nat) :
    ∀ (its : List SyncTicketItem) (st : Db × SyncReport),
      (∀ it ∈ its, it.id ∈ ticketIds st.1) →
      (its.foldl (processTicket now) st).1 = st.1 := by
  intro its
  induction its with
  | nil => intro st _; rfl
  | cons hd its ih =>
      intro st h
      rw [List.foldl_cons]
      have hstep : (processTicket now st hd).1 = st.1 :=
        processTicket_noop now st hd (h hd (List.mem_cons_self hd its))
      rw [ih (processTicket now st hd)
            (fun it hit => by rw [hstep]; exact h it (List.mem_cons_of_mem hd hit)),
          hstep]

/-- The scan-log loop preserves the set of ticket ids. -/
theorem scanLoop_ticketIds (now : Nat) :
    ∀ (its : List SyncScanLogItem) (st : Db × SyncReport),
      ticketIds (its.foldl (processScanLog now) st).1 = ticketIds st.1 := by
  intro its
  induction its with
  | nil => intro st; rfl
  | cons hd its ih =>
      intro st
      rw [List.foldl_cons, ih, processScanLog_ticketIds]

/-- The scan-log loop never removes a scan-log id. -/
theorem scanLoop_scanLogIds_mono (now : Nat) :
    ∀ (its : List SyncScanLogItem) (st : Db × SyncReport) (i : String),
      i ∈ scanLogIds st.1 →
      i ∈ scanLogIds (its.foldl (processScanLog now) st).1 := by
  intro its
  induction its with
  | nil => intro st i h; simpa using h
  | cons hd its ih =>
      intro st i h
      rw [List.foldl_cons]
      exact ih _ i (processScanLog_scanLogIds_mono now st hd i h)

/-- The scan-log loop never touches the ticket success list. -/
theorem scanLoop_syncedTickets (now : Nat) :
    ∀ (its : List SyncScanLogItem) (st : Db × SyncReport),
      (its.foldl (processScanLog now) st).2.syncedTickets =
        st.2.syncedTickets := by
  intro its
  induction its with
  | nil => intro st; rfl
  | cons hd its ih =>
      intro st
      rw [List.foldl_cons, ih, processScanLog_syncedTickets]

/-- After the scan-log loop, every batch item's id is a stored row or its
referenced ticket id is absent. -/
theorem scanLoop_covers (now : Nat) :
    ∀ (its : List SyncScanLogItem) (st : Db × SyncReport)
      (it : SyncScanLogItem), it ∈ its →
      it.id ∈ scanLogIds (its.foldl (processScanLog now) st).1 ∨
      it.ticketId ∉ ticketIds (its.foldl (processScanLog now) st).1 := by
  intro its
  induction its with
  | nil => intro st it h; simp at h
  | cons hd its ih =>
      intro st it h
      rw [List.foldl_cons]
      rcases List.mem_cons.mp h with h | h
      · subst h
        rcases processScanLog_covers_step now st it with hc | hc
        · exact Or.inl (scanLoop_scanLogIds_mono now its _ it.id hc)
        · refine Or.inr ?_
          rw [scanLoop_ticketIds]
          exact hc
      · exact ih _ it h

/-- Every id the scan-log loop adds to the success list names a batch item
and is a stored row afterwards. -/
theorem scanLoop_synced_sub (now : Nat) :
    ∀ (its : List SyncScanLogItem) (st : Db × SyncReport) (i : String),
      i ∈ (its.foldl (processScanLog now) st).2.syncedScanLogs →
      i ∈ st.2.syncedScanLogs ∨
        ∃ it ∈ its, i = it.id ∧
          i ∈ scanLogIds (its.foldl (processScanLog now) st).1 := by
  intro its
  induction its with
  | nil => intro st i h; exact Or.inl h
  | cons hd its ih =>
      intro st i h
      rw [List.foldl_cons] at h
      rcases ih _ i h with h' | ⟨it, hit, hi, hids⟩
      · rcases processScanLog_synced_step now st hd i h' with h'' | ⟨hi, hids⟩
        · exact Or.inl h''
        · refine Or.inr ⟨hd, List.mem_cons_self hd its, hi, ?_⟩
          rw [List.foldl_cons]
          exact scanLoop_scanLogIds_mono now its _ i hids
      · refine Or.inr ⟨it, List.mem_cons_of_mem hd hit, hi, ?_⟩
        rw [List.foldl_cons]
        exact hids

/-- When every batch item's id is already a stored row or its referenced
ticket is absent, the scan-log loop leaves the store untouched, keeps every
previously recorded success id, and records every already-stored item id as
synced. -/
theorem scanLoop_noop (now : Nat) :
    ∀ (its : List SyncScanLogItem) (db : Db) (rep : SyncReport),
      (∀ it ∈ its, it.id ∈ scanLogIds db ∨ it.ticketId ∉ ticketIds db) →
      (its.foldl (processScanLog now) (db, rep)).1 = db ∧
      (∀ i ∈ rep.syncedScanLogs,
        i ∈ (its.foldl (processScanLog now) (db, rep)).2.syncedScanLogs) ∧
      (∀ it ∈ its, it.id ∈ scanLogIds db →
        it.id ∈ (its.foldl (processScanLog now) (db, rep)).2.syncedScanLogs) := by
  intro its
  induction its with
  | nil =>
      intro db rep _
      exact ⟨rfl, fun i hi => hi, fun it hit => absurd hit (by simp)⟩
  | cons hd its ih =>
      intro db rep h
      by_cases hmem : hd.id ∈ scanLogIds db
      · cases hf : db.scanLogs.find? (fun s => s.id == hd.id) with
        | none =>
            exfalso
            rw [List.find?_eq_none] at hf
            simp only [scanLogIds, List.mem_map] at hmem
            obtain ⟨a, ha, hida⟩ := hmem
            exact hf a ha (by simp [hida])
        | some x =>
            have hstep : processScanLog now (db, rep) hd =
                (db, { rep with
                       syncedScanLogs := rep.syncedScanLogs ++ [hd.id] }) := by
              simp [processScanLog, hf]
            rw [List.foldl_cons, hstep]
            obtain ⟨h1, h2, h3⟩ := ih db
              { rep with syncedScanLogs := rep.syncedScanLogs ++ [hd.id] }
              (fun it hit => h it (List.mem_cons_of_mem hd hit))
            refine ⟨h1, fun i hi => h2 i (List.mem_append_left _ hi), ?_⟩
            intro it hit hids
            rcases List.mem_cons.mp hit with hit' | hit'
            · subst hit'
              exact h2 it.id (List.mem_append_right _ (by simp))
            · exact h3 it hit' hids
      · have hni : hd.ticketId ∉ ticketIds db :=
          (h hd (List.mem_cons_self hd its)).resolve_left hmem
        cases hf : db.scanLogs.find? (fun s => s.id == hd.id) with
        | some x =>
            exfalso
            have hx := List.find?_some hf
            have hxm := List.mem_of_find?_eq_some hf
            exact hmem (by
              simp only [scanLogIds, List.mem_map]
              exact ⟨x, hxm, by simpa using hx⟩)
        | none =>
            cases hft : db.tickets.find? (fun t => t.id == hd.ticketId) with
            | some tk =>
                exfalso
                have hx := List.find?_some hft
                have hxm := List.mem_of_find?_eq_some hft
                exact hni (by
                  simp only [ticketIds, List.mem_map]
                  exact ⟨tk, hxm, by simpa using hx⟩)
            | none =>
                have hstep : processScanLog now (db, rep) hd =
                    (db, { rep with errors := rep.errors ++
                        [{ type := "scanLog", id := hd.id,
                           error := "Associated ticket not found" }] }) := by
                  simp [processScanLog, hf, hft]
                rw [List.foldl_cons, hstep]
                obtain ⟨h1, h2, h3⟩ := ih db
                  { rep with errors := rep.errors ++
                      [{ type := "scanLog", id := hd.id,
                         error := "Associated ticket not found" }] }
                  (fun it hit => h it (List.mem_cons_of_mem hd hit))
                refine ⟨h1, fun i hi => h2 i hi, ?_⟩
                intro it hit hids
                rcases List.mem_cons.mp hit with hit' | hit'
                · subst hit'
                  exact absurd hids hmem
                · exact h3 it hit' hids

/-- C2: reconciliation is idempotent — replaying the identical batch against
the state produced by a first submission leaves the store exactly as it was
(no new Ticket rows, no new ScanLog rows, no second status flip), and every
id of the first report's success lists appears in the second report's
success lists. -/
theorem syncPOST_idempotent (db : Db) (req : SyncRequest) (n1 n2 : Nat) :
    (syncPOST (syncPOST db req n1).1 req n2).1 = (syncPOST db req n1).1 ∧
    (∀ i ∈ (syncPOST db req n1).2.syncedTickets,
        i ∈ (syncPOST (syncPOST db req n1).1 req n2).2.syncedTickets) ∧
    (∀ i ∈ (syncPOST db req n1).2.syncedScanLogs,
        i ∈ (syncPOST (syncPOST db req n1).1 req n2).2.syncedScanLogs) := by
  have hF2 : ∀ it ∈ req.tickets, it.id ∈ ticketIds (syncPOST db req n1).1 := by
    intro it hit
    show it.id ∈ ticketIds (req.scanLogs.foldl (processScanLog n1)
      (req.tickets.foldl (processTicket n1) (db, emptyReport))).1
    rw [scanLoop_ticketIds]
    exact ticketLoop_covers n1 req.tickets _ it hit
  have hF3 : ∀ it ∈ req.scanLogs,
      it.id ∈ scanLogIds (syncPOST db req n1).1 ∨
      it.ticketId ∉ ticketIds (syncPOST db req n1).1 :=
    fun it hit => scanLoop_covers n1 req.scanLogs _ it hit
  set B := req.tickets.foldl (processTicket n2)
    ((syncPOST db req n1).1, emptyReport) with hBdef
  have hB1 : B.1 = (syncPOST db req n1).1 := by
    rw [hBdef]
    exact ticketLoop_noop n2 req.tickets _ (fun it hit => hF2 it hit)
  have hBpair : B = ((syncPOST db req n1).1, B.2) := by
    rw [← hB1]
  have hrun2 : syncPOST (syncPOST db req n1).1 req n2 =
      req.scanLogs.foldl (processScanLog n2) B := by
    rw [hBdef]
    rfl
  have hnoop := scanLoop_noop n2 req.scanLogs (syncPOST db req n1).1 B.2 hF3
  refine ⟨?_, ?_, ?_⟩
  · rw [hrun2, hBpair]
    exact hnoop.1
  · have h1 : (syncPOST db req n1).2.syncedTickets =
        req.tickets.map (fun it => it.id) := by
      show (req.scanLogs.foldl (processScanLog n1)
        (req.tickets.foldl (processTicket n1) (db, emptyReport))).2.syncedTickets = _
      rw [scanLoop_syncedTickets, ticketLoop_syncedTickets]
      simp [emptyReport]
    have h2 : (syncPOST (syncPOST db req n1).1 req n2).2.syncedTickets =
        req.tickets.map (fun it => it.id) := by
      rw [hrun2, scanLoop_syncedTickets, hBdef, ticketLoop_syncedTickets]
      simp [emptyReport]
    rw [h1, h2]
    exact fun i hi => hi
  · intro i hi
    have hsub := scanLoop_synced_sub n1 req.scanLogs
      (req.tickets.foldl (processTicket n1) (db, emptyReport)) i hi
    rcases hsub with h0 | ⟨it, hit, hieq, hids⟩
    · rw [ticketLoop_syncedScanLogs] at h0
      simp [emptyReport] at h0
    · subst hieq
      have hmem := hnoop.2.2 it hit hids
      rw [hrun2, hBpair]
      exact hmem

/-- Witness for C2 on a concrete batch (one new ticket, one scan log): the
replay leaves the store unchanged and still reports "L1" synced. -/
theorem syncPOST_idempotent_witness :
    (syncPOST (syncPOST dbT1 reqSync 1).1 reqSync 2).1 =
      (syncPOST dbT1 reqSync 1).1 ∧
    "L1" ∈ (syncPOST (syncPOST dbT1 reqSync 1).1 reqSync 2).2.syncedScanLogs :=
  ⟨(syncPOST_idempotent dbT1 reqSync 1 2).1,
   (syncPOST_idempotent dbT1 reqSync 1 2).2.2 "L1" (by decide)⟩
